import Mathlib

/-!
Shallow embedding of `src/ublue_update/cli.py` from the ublue-update
repository.  The effectful Python code is modelled as pure functions over an
oracle environment `Env` (uid, configuration, lock oracle, session registry,
subprocess results).  Each function returns its result together with a trace
of observable side effects (`Event`), and the process-terminating operations
(`os._exit`, uncaught exceptions) are modelled by the `Outcome` type.
-/

/-- Session record as produced by `get_active_sessions`: the fields
`user["User"]` (numeric uid) and `user["Name"]` that `cli.py` reads. -/
structure Session where
  uid : Nat
  name : String
deriving DecidableEq, Repr

/-- Notification request: the arguments of a `notify(title, body, actions, urgency)`
call in `cli.py`. -/
structure NotifyReq where
  title : String
  body : String
  actions : List String
  urgency : String
deriving DecidableEq, Repr

/-- Captured output of a `subprocess.run` notification round trip: `cli.py`
only ever inspects `out.stdout`. -/
structure NotifyOut where
  stdout : String
deriving DecidableEq, Repr

/-- Configuration relevant to `cli.py`: only `cfg.dbus_notify` is read. -/
structure Config where
  dbus_notify : Bool
deriving DecidableEq, Repr

/-- Oracle environment: every external fact `cli.py` observes during one run.
`sessions = none` and `userXdg u = none` model the `KeyError` paths of
`get_active_sessions` and `get_xdg_runtime_dir`; `acquire p = none` models
`acquire_lock` failing to take the lock. -/
structure Env where
  uid : Nat
  cfg : Config
  xdgRuntimeDir : Option String
  isDir : String → Bool
  acquire : String → Option Nat
  sessions : Option (List Session)
  userXdg : Nat → Option String
  sendUser : NotifyReq → Session → String
  sendSelf : NotifyReq → String
  topgradeSystemRet : Int
  topgradeSystemOut : String
  topgradeUserRet : Session → Int
  pendingDeployment : Bool
  updateAvailable : Bool
  hwFailed : Bool
  hwFailures : List String

/-- Observable side effects of a run, in program order. -/
inductive Event where
  | lockAcquired (path : String) (fd : Nat)
  | lockReleased (fd : Nat)
  | transactionWait
  | notifyCall (req : NotifyReq)
  | notifySendUser (name : String)
  | notifySendSelf
  | runTopgradeSystem (ret : Int)
  | runTopgradeUser (name : String) (ret : Int)
  | printOutput (s : String)
  | logError (msg : String)
  | reboot
deriving DecidableEq, Repr

/-- How the process terminates: `os._exit(code)`, a raised `Exception` with a
message, the `TypeError` from `os.path.isdir(None)`, or the `AttributeError`
from reading `.stdout` off `None`. -/
inductive Outcome where
  | exited (code : Int)
  | raised (msg : String)
  | typeError
  | attrError
deriving DecidableEq, Repr

/-- Occurrence test for a character list inside another character list. -/
def charsContain (pat : List Char) : List Char → Bool
  | [] => List.isPrefixOf pat []
  | c :: rest => List.isPrefixOf pat (c :: rest) || charsContain pat rest

/-- Python's `pat in hay` substring test on strings. -/
def strContains (hay pat : String) : Bool :=
  charsContain pat.data hay.data

/-- Lock-file path selection of `run_updates` (cli.py lines 90-95): the fixed
system path for root; for a non-root caller the path under `XDG_RUNTIME_DIR`
when that variable names an existing directory, the fixed system path when it
names something that is not a directory, and a `TypeError` (from
`os.path.isdir(None)`) when it is unset. -/
def filelockPath (env : Env) : Except Outcome String :=
  if env.uid ≠ 0 then
    match env.xdgRuntimeDir with
    | none => Except.error Outcome.typeError
    | some x =>
      if env.isDir x then Except.ok (x ++ "/ublue-update.lock")
      else Except.ok "/run/ublue-update.lock"
  else Except.ok "/run/ublue-update.lock"

/-- Per-user loop of `notify` (cli.py lines 38-54).  A `KeyError` from
`get_xdg_runtime_dir` logs and does `return` (abandoning the remaining
users); otherwise one `subprocess.run` round trip is made, and when the
action list is non-empty the first response is returned immediately. -/
def notifyLoop (env : Env) (req : NotifyReq) : List Session → Option NotifyOut × List Event
  | [] => (none, [])
  | u :: rest =>
    match env.userXdg u.uid with
    | none =>
      (none, [Event.logError ("failed to get xdg_runtime_dir for user: " ++ u.name)])
    | some _ =>
      if req.actions = [] then
        let r := notifyLoop env req rest
        (r.1, Event.notifySendUser u.name :: r.2)
      else
        (some ⟨env.sendUser req u⟩, [Event.notifySendUser u.name])

/-- Model of `notify` (cli.py lines 17-57).  Returns `none` immediately when
`cfg.dbus_notify` is false; as root it enumerates active sessions and runs
the per-user loop; as a non-root caller it performs one direct round trip. -/
def notify (env : Env) (req : NotifyReq) : Option NotifyOut × List Event :=
  if env.cfg.dbus_notify = false then (none, [])
  else if env.uid = 0 then
    let sessErr : List Event :=
      match env.sessions with
      | none => [Event.logError "failed to get active logind session info"]
      | some _ => []
    let r := notifyLoop env req (env.sessions.getD [])
    (r.1, Event.notifyCall req :: sessErr ++ r.2)
  else
    (some ⟨env.sendSelf req⟩, [Event.notifyCall req, Event.notifySendSelf])

/-- Per-user topgrade loop of `run_updates` (cli.py lines 136-160).  A
`KeyError` from `get_xdg_runtime_dir` logs and then does `break`, abandoning
all remaining users; otherwise the user's topgrade run is performed and its
return code is only logged, never inspected. -/
def userUpdateLoop (env : Env) : List Session → List Event
  | [] => []
  | u :: rest =>
    match env.userXdg u.uid with
    | none =>
      [Event.logError ("failed to get xdg_runtime_dir for user: " ++ u.name)]
    | some _ =>
      Event.runTopgradeUser u.name (env.topgradeUserRet u) :: userUpdateLoop env rest

/-- Log event emitted when `get_active_sessions` raises `KeyError`. -/
def sessionsErrEvents (env : Env) : List Event :=
  match env.sessions with
  | none => [Event.logError "failed to get active logind session info"]
  | some _ => []

/-- Notification request sent at the start of the root branch of
`run_updates` (cli.py lines 104-107). -/
def startReq : NotifyReq :=
  ⟨"System Updater", "System passed checks, updating ...", [], "normal"⟩

/-- Reboot-prompt request of `run_updates` (cli.py lines 163-167). -/
def rebootReq : NotifyReq :=
  ⟨"System Updater",
   "System update complete, pending changes will take effect after reboot. Reboot now?",
   ["universal-blue-update-reboot=Reboot Now"], "normal"⟩

/-- Model of `run_updates` (cli.py lines 89-177).  Computes the scope lock
path, acquires the lock (raising on contention), waits on transactions, then
either runs the root branch (system topgrade, per-user passes, reboot
prompt) or the non-root branch (rejecting system-only runs).  Termination is
always by `os._exit` or by an exception. -/
def run_updates (env : Env) (system system_update_available : Bool) : Outcome × List Event :=
  match filelockPath env with
  | Except.error o => (o, [])
  | Except.ok p =>
    match env.acquire p with
    | none => (Outcome.raised "updates are already running for this user", [])
    | some fd =>
      let pre := [Event.lockAcquired p fd, Event.transactionWait]
      if env.uid = 0 then
        let n1 := notify env startReq
        let users0 := env.sessions.getD []
        let users := if system then [] else users0
        let evSys := [Event.runTopgradeSystem env.topgradeSystemRet]
        if env.topgradeSystemRet ≠ 0 then
          (Outcome.exited env.topgradeSystemRet,
           pre ++ n1.2 ++ sessionsErrEvents env ++ evSys ++
             [Event.printOutput env.topgradeSystemOut])
        else
          let evUsers := userUpdateLoop env users
          if env.pendingDeployment && system_update_available && env.cfg.dbus_notify then
            let n2 := notify env rebootReq
            match n2.1 with
            | none =>
              (Outcome.attrError,
               pre ++ n1.2 ++ sessionsErrEvents env ++ evSys ++ evUsers ++ n2.2)
            | some o =>
              let evReboot :=
                if strContains o.stdout "universal-blue-update-reboot" then [Event.reboot]
                else []
              (Outcome.exited 0,
               pre ++ n1.2 ++ sessionsErrEvents env ++ evSys ++ evUsers ++ n2.2 ++
                 evReboot ++ [Event.lockReleased fd])
          else
            (Outcome.exited 0,
             pre ++ n1.2 ++ sessionsErrEvents env ++ evSys ++ evUsers ++
               [Event.lockReleased fd])
      else
        if system then
          (Outcome.raised "ublue-update needs to be run as root to perform system updates!",
           pre)
        else
          (Outcome.exited 0, pre ++ [Event.lockReleased fd])

/-- Escalation request dispatched by `ask_for_updates` (cli.py lines 63-68). -/
def escReq : NotifyReq :=
  ⟨"System Updater", "Update available, but system checks failed. Update now?",
   ["universal-blue-update-confirm=Confirm"], "critical"⟩

/-- Model of `ask_for_updates` (cli.py lines 60-73).  Returns `none` when the
function falls through (the caller then raises the gating exception), and
`some o` when the confirm action was selected and the nested
`run_updates(system, True)` terminated the process with outcome `o`. -/
def ask_for_updates (env : Env) (system : Bool) : Option Outcome × List Event :=
  if env.cfg.dbus_notify = false then (none, [])
  else
    let r := notify env escReq
    match r.1 with
    | none => (none, r.2)
    | some o =>
      if strContains o.stdout "universal-blue-update-confirm" then
        let run := run_updates env system true
        (some run.1, r.2 ++ run.2)
      else (none, r.2)

/-- Message of the gating exception (cli.py lines 85-86). -/
def gatingMsg (failures : List String) : String :=
  "update failed to pass checks: \n - " ++ String.intercalate "\n - " failures

/-- Model of `hardware_inhibitor_checks_failed` (cli.py lines 76-86): when an
update is available and the run is not check-only, asks for confirmation;
unless the nested run terminated the process, raises the aggregated gating
exception. -/
def hardware_inhibitor_checks_failed (env : Env) (failures : List String)
    (hardware_check system_update_available system : Bool) : Outcome × List Event :=
  if system_update_available && !hardware_check then
    let r := ask_for_updates env system
    match r.1 with
    | some o => (o, r.2)
    | none => (Outcome.raised (gatingMsg failures), r.2)
  else (Outcome.raised (gatingMsg failures), [])

/-- Parsed command-line intent (cli.py lines 191-222). -/
structure CliArgs where
  force : Bool
  check : Bool
  updatecheck : Bool
  wait : Bool
  system : Bool
deriving DecidableEq, Repr

/-- Model of `main` after config loading (cli.py lines 227-251): the wait-only
early exit, the inhibitor-check phase, the check-only and updatecheck-only
exits, and the final call to `run_updates`. -/
def main_run (env : Env) (args : CliArgs) : Outcome × List Event :=
  if args.wait then (Outcome.exited 0, [Event.transactionWait])
  else if !args.force && !args.updatecheck && env.hwFailed then
    hardware_inhibitor_checks_failed env env.hwFailures args.check
      env.updateAvailable args.system
  else if !args.force && !args.updatecheck && args.check then
    (Outcome.exited 0, [])
  else if args.updatecheck then
    if env.updateAvailable = false then (Outcome.raised "Update not available", [])
    else (Outcome.exited 0, [])
  else run_updates env args.system env.updateAvailable

/-- Number of trace events satisfying a predicate. -/
def countIf (p : Event → Bool) (evs : List Event) : Nat :=
  (evs.filter p).length

/-- Lock-release events. -/
def isRelease : Event → Bool
  | Event.lockReleased _ => true
  | _ => false

/-- Lock-acquisition events. -/
def isAcquire : Event → Bool
  | Event.lockAcquired _ _ => true
  | _ => false

/-- Per-user topgrade invocations. -/
def isUserRun : Event → Bool
  | Event.runTopgradeUser _ _ => true
  | _ => false

/-- Critical-urgency notification dispatches. -/
def isCriticalCall : Event → Bool
  | Event.notifyCall r => r.urgency == "critical"
  | _ => false

/-- Per-session notification round trips. -/
def isSendUser : Event → Bool
  | Event.notifySendUser _ => true
  | _ => false

theorem countIf_nil (p : Event → Bool) : countIf p [] = 0 := rfl

theorem countIf_cons (p : Event → Bool) (e : Event) (evs : List Event) :
    countIf p (e :: evs) = (if p e = true then 1 else 0) + countIf p evs := by
  by_cases h : p e = true <;> simp [countIf, List.filter_cons, h, Nat.add_comm]

theorem countIf_append (p : Event → Bool) (a b : List Event) :
    countIf p (a ++ b) = countIf p a + countIf p b := by
  simp [countIf, List.filter_append]

theorem notifyLoop_count_zero (env : Env) (req : NotifyReq) (p : Event → Bool)
    (h1 : ∀ n, p (Event.notifySendUser n) = false)
    (h2 : ∀ m, p (Event.logError m) = false) :
    ∀ l, countIf p (notifyLoop env req l).2 = 0 := by
  intro l
  induction l with
  | nil => rfl
  | cons u rest ih =>
    simp only [notifyLoop]
    cases hx : env.userXdg u.uid with
    | none => simp [countIf_cons, countIf_nil, h2]
    | some x =>
      by_cases hac : req.actions = []
      · simp [hac, countIf_cons, h1, ih]
      · simp [hac, countIf_cons, countIf_nil, h1]

theorem sessionsErr_count_zero (env : Env) (p : Event → Bool)
    (h2 : ∀ m, p (Event.logError m) = false) :
    countIf p (sessionsErrEvents env) = 0 := by
  unfold sessionsErrEvents
  cases env.sessions <;> simp [countIf_cons, countIf_nil, h2]

theorem notify_count_zero (env : Env) (req : NotifyReq) (p : Event → Bool)
    (h1 : ∀ n, p (Event.notifySendUser n) = false)
    (h2 : ∀ m, p (Event.logError m) = false)
    (h3 : p Event.notifySendSelf = false)
    (h4 : p (Event.notifyCall req) = false) :
    countIf p (notify env req).2 = 0 := by
  unfold notify
  by_cases hd : env.cfg.dbus_notify = false
  · simp [hd, countIf_nil]
  · by_cases hu : env.uid = 0
    · cases hs : env.sessions <;>
        simp [hd, hu, hs, countIf_cons, countIf_append, countIf_nil, h2, h4,
          notifyLoop_count_zero env req p h1 h2]
    · simp [hd, hu, countIf_cons, countIf_nil, h3, h4]

theorem notify_count_call (env : Env) (req : NotifyReq) (p : Event → Bool)
    (hd : env.cfg.dbus_notify = true)
    (h1 : ∀ n, p (Event.notifySendUser n) = false)
    (h2 : ∀ m, p (Event.logError m) = false)
    (h3 : p Event.notifySendSelf = false)
    (h4 : p (Event.notifyCall req) = true) :
    countIf p (notify env req).2 = 1 := by
  unfold notify
  by_cases hu : env.uid = 0
  · cases hs : env.sessions <;>
      simp [hd, hu, hs, countIf_cons, countIf_append, countIf_nil, h2, h4,
        notifyLoop_count_zero env req p h1 h2]
  · simp [hd, hu, countIf_cons, countIf_nil, h3, h4]

theorem userUpdateLoop_count_zero (env : Env) (p : Event → Bool)
    (h1 : ∀ n r, p (Event.runTopgradeUser n r) = false)
    (h2 : ∀ m, p (Event.logError m) = false) :
    ∀ l, countIf p (userUpdateLoop env l) = 0 := by
  intro l
  induction l with
  | nil => rfl
  | cons u rest ih =>
    simp only [userUpdateLoop]
    cases hx : env.userXdg u.uid with
    | none => simp [countIf_cons, countIf_nil, h2]
    | some x => simp [countIf_cons, h1, ih]

theorem filelockPath_error (env : Env) (o : Outcome)
    (h : filelockPath env = Except.error o) : o = Outcome.typeError := by
  unfold filelockPath at h
  by_cases hu : env.uid ≠ 0
  · cases hx : env.xdgRuntimeDir with
    | none => simp [hu, hx] at h; exact h.symm
    | some x => by_cases hd : env.isDir x <;> simp [hu, hx, hd] at h
  · simp [hu] at h

def sAlice : Session := ⟨1000, "alice"⟩

def sBob : Session := ⟨1001, "bob"⟩

/-- Concrete oracle environment for witnesses: a root invocation with one
active session, notifications enabled, the lock free, and a clean topgrade. -/
def baseEnv : Env where
  uid := 0
  cfg := ⟨true⟩
  xdgRuntimeDir := some "/run/user/1000"
  isDir := fun _ => true
  acquire := fun _ => some 3
  sessions := some [sAlice]
  userXdg := fun _ => some "/run/user/1000"
  sendUser := fun _ _ => ""
  sendSelf := fun _ => ""
  topgradeSystemRet := 0
  topgradeSystemOut := ""
  topgradeUserRet := fun _ => 0
  pendingDeployment := false
  updateAvailable := true
  hwFailed := true
  hwFailures := ["battery"]

/-- Non-root caller whose `XDG_RUNTIME_DIR` points at something that is not a
directory. -/
def envC9 : Env :=
  { baseEnv with uid := 1000, xdgRuntimeDir := some "/tmp/x", isDir := fun _ => false }

/-- Non-root caller with a valid runtime directory and a free lock. -/
def envC10 : Env := { baseEnv with uid := 1000 }

/-- C9 — counterexample.  A non-root caller (uid 1000) whose runtime-directory
variable names a non-directory gets the fixed system lock path, not a path
under its runtime directory, refuting "for every non-root caller a path under
that caller's runtime directory". -/
theorem c9_counterexample :
    envC9.uid ≠ 0 ∧
    envC9.xdgRuntimeDir = some "/tmp/x" ∧
    filelockPath envC9 = Except.ok "/run/ublue-update.lock" ∧
    "/run/ublue-update.lock" ≠ "/tmp/x" ++ "/ublue-update.lock" := by
  refine ⟨by decide, rfl, rfl, by decide⟩

/-- C9 — amended.  The lock path is the fixed system path for root; for a
non-root caller it is under `XDG_RUNTIME_DIR` only when that variable names
an existing directory, it falls back to the fixed system path when the
variable names a non-directory, and path selection fails with a `TypeError`
when the variable is unset. -/
theorem c9_amended_lock_path (env : Env) (x : String) :
    (env.uid = 0 → filelockPath env = Except.ok "/run/ublue-update.lock") ∧
    (env.uid ≠ 0 → env.xdgRuntimeDir = some x → env.isDir x = true →
      filelockPath env = Except.ok (x ++ "/ublue-update.lock")) ∧
    (env.uid ≠ 0 → env.xdgRuntimeDir = some x → env.isDir x = false →
      filelockPath env = Except.ok "/run/ublue-update.lock") ∧
    (env.uid ≠ 0 → env.xdgRuntimeDir = none →
      filelockPath env = Except.error Outcome.typeError) := by
  refine ⟨fun h => by simp [filelockPath, h],
    fun h hx hd => by simp [filelockPath, h, hx, hd],
    fun h hx hd => by simp [filelockPath, h, hx, hd],
    fun h hx => by simp [filelockPath, h, hx]⟩

/-- C9 — witness for the amended theorem at a concrete non-root environment. -/
theorem c9_witness :
    envC9.uid ≠ 0 ∧ envC9.xdgRuntimeDir = some "/tmp/x" ∧ envC9.isDir "/tmp/x" = false ∧
    filelockPath envC9 = Except.ok "/run/ublue-update.lock" :=
  ⟨by decide, rfl, rfl, (c9_amended_lock_path envC9 "/tmp/x").2.2.1 (by decide) rfl rfl⟩

/-- C10 — for every non-root invocation without the system-only flag whose
lock path resolves and whose lock is free, `run_updates` performs exactly a
lock acquisition, a transaction wait, and a lock release, then exits with
status 0: no update tool is invoked and no notification is dispatched. -/
theorem c10_nonroot_trivial_run (env : Env) (avail : Bool) (p : String) (fd : Nat)
    (hu : env.uid ≠ 0) (hp : filelockPath env = Except.ok p)
    (ha : env.acquire p = some fd) :
    run_updates env false avail =
      (Outcome.exited 0,
       [Event.lockAcquired p fd, Event.transactionWait, Event.lockReleased fd]) := by
  simp [run_updates, hp, ha, hu]

/-- C10 — witness at a concrete non-root environment. -/
theorem c10_witness :
    envC10.uid ≠ 0 ∧
    filelockPath envC10 = Except.ok "/run/user/1000/ublue-update.lock" ∧
    envC10.acquire "/run/user/1000/ublue-update.lock" = some 3 ∧
    run_updates envC10 false true =
      (Outcome.exited 0,
       [Event.lockAcquired "/run/user/1000/ublue-update.lock" 3,
        Event.transactionWait, Event.lockReleased 3]) :=
  ⟨by decide, rfl, rfl, c10_nonroot_trivial_run envC10 true _ 3 (by decide) rfl rfl⟩

/-- C2 — counterexample.  A non-root caller with the system-only flag set does
acquire the per-user lock and does wait on transactions before the privilege
rejection fires, refuting "fails before any lock is acquired and performs no
side effects". -/
theorem c2_counterexample :
    envC10.uid ≠ 0 ∧
    run_updates envC10 true true =
      (Outcome.raised "ublue-update needs to be run as root to perform system updates!",
       [Event.lockAcquired "/run/user/1000/ublue-update.lock" 3, Event.transactionWait]) ∧
    Event.lockAcquired "/run/user/1000/ublue-update.lock" 3 ∈
      (run_updates envC10 true true).2 := by
  refine ⟨by decide, rfl, by decide⟩

/-- C2 — amended.  A non-root invocation with the system-only flag set raises
the privilege-rejection exception, but only after acquiring the per-scope
lock and waiting for transactions to quiesce; the lock is acquired as a side
effect before the rejection and is never released. -/
theorem c2_amended_privilege_guard (env : Env) (avail : Bool) (p : String) (fd : Nat)
    (hu : env.uid ≠ 0) (hp : filelockPath env = Except.ok p)
    (ha : env.acquire p = some fd) :
    run_updates env true avail =
      (Outcome.raised "ublue-update needs to be run as root to perform system updates!",
       [Event.lockAcquired p fd, Event.transactionWait]) := by
  simp [run_updates, hp, ha, hu]

/-- C2 — witness for the amended theorem at a concrete non-root environment. -/
theorem c2_witness :
    envC10.uid ≠ 0 ∧
    run_updates envC10 true false =
      (Outcome.raised "ublue-update needs to be run as root to perform system updates!",
       [Event.lockAcquired "/run/user/1000/ublue-update.lock" 3, Event.transactionWait]) :=
  ⟨by decide, c2_amended_privilege_guard envC10 false _ 3 (by decide) rfl rfl⟩

/-- C3 — for every root run whose lock is free and whose system topgrade
returns a non-zero status, `run_updates` exits the process with that status,
prints the tool output, and performs no per-user update pass. -/
theorem c3_system_tool_failure_fatal (env : Env) (system avail : Bool) (fd : Nat)
    (hu : env.uid = 0) (ha : env.acquire "/run/ublue-update.lock" = some fd)
    (hr : env.topgradeSystemRet ≠ 0) :
    (run_updates env system avail).1 = Outcome.exited env.topgradeSystemRet ∧
    Event.printOutput env.topgradeSystemOut ∈ (run_updates env system avail).2 ∧
    countIf isUserRun (run_updates env system avail).2 = 0 := by
  have hp : filelockPath env = Except.ok "/run/ublue-update.lock" := by
    simp [filelockPath, hu]
  have hz1 : countIf isUserRun (notify env startReq).2 = 0 :=
    notify_count_zero _ _ _ (fun n => rfl) (fun m => rfl) rfl rfl
  have hz2 : countIf isUserRun (sessionsErrEvents env) = 0 :=
    sessionsErr_count_zero _ _ (fun m => rfl)
  simp only [run_updates, hp, ha]
  simp [hu, hr, countIf_append, countIf_cons, countIf_nil, hz1, hz2, isUserRun]

/-- Root environment with notifications disabled, one session, and a failing
system topgrade (return code 7). -/
def envC3 : Env :=
  { baseEnv with
    cfg := ⟨false⟩
    topgradeSystemRet := 7
    topgradeSystemOut := "boom" }

/-- C3 — witness at a concrete root environment with a failing system tool. -/
theorem c3_witness :
    envC3.uid = 0 ∧ envC3.acquire "/run/ublue-update.lock" = some 3 ∧
    envC3.topgradeSystemRet ≠ 0 ∧
    ((run_updates envC3 false true).1 = Outcome.exited envC3.topgradeSystemRet ∧
     Event.printOutput envC3.topgradeSystemOut ∈ (run_updates envC3 false true).2 ∧
     countIf isUserRun (run_updates envC3 false true).2 = 0) :=
  ⟨rfl, rfl, by decide, c3_system_tool_failure_fatal envC3 false true 3 rfl rfl (by decide)⟩

/-- C1 — counterexample.  In a root run whose system topgrade fails (code 7),
the lock is acquired but the process exits with the tool's status without any
lock release, refuting "the lock is released exactly once ... on every exit
path ... fatal system-update-tool failure". -/
theorem c1_counterexample :
    (run_updates envC3 false true).1 = Outcome.exited 7 ∧
    countIf isAcquire (run_updates envC3 false true).2 = 1 ∧
    countIf isRelease (run_updates envC3 false true).2 = 0 :=
  ⟨rfl, rfl, rfl⟩

/-- C1 — amended.  For every run in which `acquire_lock` succeeds, the lock is
acquired exactly once and released exactly once if the process terminates
normally with exit status 0; on every other exit path (fatal system-tool
failure, the non-root system-only rejection, and the crash on an absent
reboot-prompt response) the process terminates without releasing the lock. -/
theorem c1_amended_lock_release (env : Env) (system avail : Bool) (p : String) (fd : Nat)
    (hp : filelockPath env = Except.ok p) (ha : env.acquire p = some fd) :
    countIf isAcquire (run_updates env system avail).2 = 1 ∧
    countIf isRelease (run_updates env system avail).2 =
      (if (run_updates env system avail).1 = Outcome.exited 0 then 1 else 0) := by
  have hra : ∀ req, countIf isRelease (notify env req).2 = 0 := fun req =>
    notify_count_zero _ _ _ (fun n => rfl) (fun m => rfl) rfl rfl
  have haa : ∀ req, countIf isAcquire (notify env req).2 = 0 := fun req =>
    notify_count_zero _ _ _ (fun n => rfl) (fun m => rfl) rfl rfl
  have hrs : countIf isRelease (sessionsErrEvents env) = 0 :=
    sessionsErr_count_zero _ _ (fun m => rfl)
  have has : countIf isAcquire (sessionsErrEvents env) = 0 :=
    sessionsErr_count_zero _ _ (fun m => rfl)
  have hru : ∀ l, countIf isRelease (userUpdateLoop env l) = 0 :=
    userUpdateLoop_count_zero _ _ (fun n r => rfl) (fun m => rfl)
  have hau : ∀ l, countIf isAcquire (userUpdateLoop env l) = 0 :=
    userUpdateLoop_count_zero _ _ (fun n r => rfl) (fun m => rfl)
  simp only [run_updates, hp, ha]
  by_cases hu : env.uid = 0
  · by_cases hr0 : env.topgradeSystemRet = 0
    · by_cases hpend : (env.pendingDeployment && avail && env.cfg.dbus_notify) = true
      · cases hn2 : (notify env rebootReq).1 with
        | none =>
          simp [hu, hr0, hpend, hn2, countIf_append, countIf_cons, countIf_nil,
            hra, haa, hrs, has, hru, hau, isAcquire, isRelease]
        | some o =>
          by_cases hreb : strContains o.stdout "universal-blue-update-reboot" = true <;>
            simp [hu, hr0, hpend, hn2, hreb, countIf_append, countIf_cons, countIf_nil,
              hra, haa, hrs, has, hru, hau, isAcquire, isRelease]
      · simp [hu, hr0, hpend, countIf_append, countIf_cons, countIf_nil,
          hra, haa, hrs, has, hru, hau, isAcquire, isRelease]
    · simp [hu, hr0, countIf_append, countIf_cons, countIf_nil,
        hra, haa, hrs, has, isAcquire, isRelease, Outcome.exited.injEq]
  · by_cases hs : system = true <;>
      simp [hu, hs, countIf_append, countIf_cons, countIf_nil, isAcquire, isRelease]

/-- C1 — witness for the amended theorem at a concrete root environment that
completes normally. -/
theorem c1_witness :
    filelockPath baseEnv = Except.ok "/run/ublue-update.lock" ∧
    baseEnv.acquire "/run/ublue-update.lock" = some 3 ∧
    (countIf isAcquire (run_updates baseEnv false true).2 = 1 ∧
     countIf isRelease (run_updates baseEnv false true).2 =
       (if (run_updates baseEnv false true).1 = Outcome.exited 0 then 1 else 0)) :=
  ⟨rfl, rfl, c1_amended_lock_release baseEnv false true _ 3 rfl rfl⟩

/-- Root environment with two sessions where the first user's runtime
directory cannot be resolved but the second user's can. -/
def envC4 : Env :=
  { baseEnv with
    cfg := ⟨false⟩
    sessions := some [sAlice, sBob]
    userXdg := fun u => if u = 1001 then some "/run/user/1001" else none }

/-- C4 — behavior of the code at the failing input.  With sessions
[alice, bob] where alice's runtime directory fails to resolve and bob's
resolves fine, the per-user loop logs alice's failure and then stops: bob's
update pass never runs (`break` instead of a per-session skip), contradicting
the claim that one session's failure does not prevent subsequent sessions'
passes. -/
theorem c4_break_on_xdg_failure :
    envC4.userXdg sBob.uid = some "/run/user/1001" ∧
    run_updates envC4 false false =
      (Outcome.exited 0,
       [Event.lockAcquired "/run/ublue-update.lock" 3, Event.transactionWait,
        Event.runTopgradeSystem 0,
        Event.logError "failed to get xdg_runtime_dir for user: alice",
        Event.lockReleased 3]) ∧
    countIf isUserRun (run_updates envC4 false false).2 = 0 :=
  ⟨rfl, rfl, rfl⟩

/-- Environment with the inhibitor gate failing and no update available. -/
def envC6 : Env := { baseEnv with updateAvailable := false }

/-- Command-line intent with every flag clear. -/
def argsPlain : CliArgs := ⟨false, false, false, false, false⟩

/-- C6 — for every run in which the inhibitor checks fail and no update is
available (or the invocation is check-only), the process raises the gating
exception carrying all aggregated failure reasons, dispatches no notification
and acquires no lock (the event trace is empty). -/
theorem c6_gated_abort_no_escalation (env : Env) (args : CliArgs)
    (hw : args.wait = false) (hf : args.force = false) (huc : args.updatecheck = false)
    (hfail : env.hwFailed = true)
    (h : env.updateAvailable = false ∨ args.check = true) :
    main_run env args = (Outcome.raised (gatingMsg env.hwFailures), []) := by
  simp only [main_run, hw, hf, huc, hfail]
  rcases h with h | h <;>
    simp [hardware_inhibitor_checks_failed, h]

/-- C6 — witness at a concrete environment with failing inhibitors and no
update available. -/
theorem c6_witness :
    argsPlain.wait = false ∧ argsPlain.force = false ∧ argsPlain.updatecheck = false ∧
    envC6.hwFailed = true ∧ envC6.updateAvailable = false ∧
    main_run envC6 argsPlain = (Outcome.raised (gatingMsg envC6.hwFailures), []) :=
  ⟨rfl, rfl, rfl, rfl, rfl,
   c6_gated_abort_no_escalation envC6 argsPlain rfl rfl rfl rfl (Or.inl rfl)⟩

/-- C7 — when notifications are disabled by configuration, `notify` is a
no-op returning no response (and an empty trace), `ask_for_updates` treats
the absent response as "no action selected" and falls through without error,
and `run_updates` can never hit the crash that dereferences an absent
notification response. -/
theorem c7_notify_disabled_noop (env : Env) (h : env.cfg.dbus_notify = false) :
    (∀ req, notify env req = (none, [])) ∧
    (∀ system, ask_for_updates env system = (none, [])) ∧
    (∀ system avail, (run_updates env system avail).1 ≠ Outcome.attrError) := by
  refine ⟨fun req => by simp [notify, h], fun system => by simp [ask_for_updates, h], ?_⟩
  intro system avail
  unfold run_updates
  cases hp : filelockPath env with
  | error o =>
    have ho := filelockPath_error env o hp
    simp [ho]
  | ok p =>
    cases ha : env.acquire p with
    | none => simp [ha]
    | some fd =>
      by_cases hu : env.uid = 0
      · by_cases hr : env.topgradeSystemRet = 0 <;> simp [ha, hu, hr, h]
      · by_cases hs : system = true <;> simp [ha, hu, hs]

/-- Environment with notifications disabled. -/
def envC7 : Env := { baseEnv with cfg := ⟨false⟩ }

/-- C7 — witness at a concrete environment with notifications disabled. -/
theorem c7_witness :
    envC7.cfg.dbus_notify = false ∧
    ((∀ req, notify envC7 req = (none, [])) ∧
     (∀ system, ask_for_updates envC7 system = (none, [])) ∧
     (∀ system avail, (run_updates envC7 system avail).1 ≠ Outcome.attrError)) :=
  ⟨rfl, c7_notify_disabled_noop envC7 rfl⟩

/-- Root environment with two resolvable sessions whose notification
responses select no action. -/
def envC8 : Env :=
  { baseEnv with
    sessions := some [sAlice, sBob]
    userXdg := fun _ => some "/run/user/x" }

/-- C8 — counterexample.  As root with a non-empty action list and two
resolved sessions, `notify` performs exactly one round trip (to the first
session) and returns that session's response even though it contains no
selected action, refuting "iterates over every resolved session ... one
round-trip per session ... returns the first response that includes a
selected action". -/
theorem c8_counterexample :
    envC8.uid = 0 ∧ envC8.sessions = some [sAlice, sBob] ∧
    notify envC8 escReq =
      (some ⟨""⟩, [Event.notifyCall escReq, Event.notifySendUser "alice"]) ∧
    countIf isSendUser (notify envC8 escReq).2 = 1 ∧
    strContains "" "universal-blue-update-confirm" = false :=
  ⟨rfl, rfl, rfl, rfl, rfl⟩

/-- C8 — amended.  When `notify` is invoked as root with a non-empty action
list and at least one resolved session whose runtime directory resolves, it
performs exactly one notification round trip, to the first resolved session,
and returns that session's response regardless of whether an action was
selected; the remaining sessions are never contacted. -/
theorem c8_amended_first_session_only (env : Env) (req : NotifyReq) (u : Session)
    (rest : List Session) (x : String)
    (hroot : env.uid = 0) (hd : env.cfg.dbus_notify = true) (hac : req.actions ≠ [])
    (hs : env.sessions = some (u :: rest)) (hx : env.userXdg u.uid = some x) :
    notify env req =
      (some ⟨env.sendUser req u⟩,
       [Event.notifyCall req, Event.notifySendUser u.name]) := by
  simp [notify, hd, hroot, hs, notifyLoop, hx, hac]

/-- C8 — witness for the amended theorem at the concrete two-session
environment. -/
theorem c8_witness :
    envC8.uid = 0 ∧ envC8.cfg.dbus_notify = true ∧ escReq.actions ≠ [] ∧
    envC8.sessions = some (sAlice :: [sBob]) ∧
    envC8.userXdg sAlice.uid = some "/run/user/x" ∧
    notify envC8 escReq =
      (some ⟨envC8.sendUser escReq sAlice⟩,
       [Event.notifyCall escReq, Event.notifySendUser sAlice.name]) :=
  ⟨rfl, rfl, by decide, rfl, rfl,
   c8_amended_first_session_only envC8 escReq sAlice [sBob] "/run/user/x"
     rfl rfl (by decide) rfl rfl⟩

theorem notify_call_mem (env : Env) (req : NotifyReq) (hd : env.cfg.dbus_notify = true) :
    Event.notifyCall req ∈ (notify env req).2 := by
  unfold notify
  by_cases hu : env.uid = 0 <;> simp [hd, hu]

theorem run_updates_count_critical (env : Env) (system avail : Bool) :
    countIf isCriticalCall (run_updates env system avail).2 = 0 := by
  have hn : ∀ req : NotifyReq, isCriticalCall (Event.notifyCall req) = false →
      countIf isCriticalCall (notify env req).2 = 0 := fun req hreq =>
    notify_count_zero _ _ _ (fun n => rfl) (fun m => rfl) rfl hreq
  have hn1 := hn startReq rfl
  have hn2 := hn rebootReq rfl
  have hse : countIf isCriticalCall (sessionsErrEvents env) = 0 :=
    sessionsErr_count_zero _ _ (fun m => rfl)
  have hus : ∀ l, countIf isCriticalCall (userUpdateLoop env l) = 0 :=
    userUpdateLoop_count_zero _ _ (fun n r => rfl) (fun m => rfl)
  unfold run_updates
  cases hp : filelockPath env with
  | error o => simp [countIf_nil]
  | ok p =>
    cases ha : env.acquire p with
    | none => simp [ha, countIf_nil]
    | some fd =>
      by_cases hu : env.uid = 0
      · by_cases hr : env.topgradeSystemRet = 0
        · by_cases hpend : (env.pendingDeployment && avail && env.cfg.dbus_notify) = true
          · cases hn2m : (notify env rebootReq).1 with
            | none =>
              simp [ha, hu, hr, hpend, hn2m, countIf_append, countIf_cons, countIf_nil,
                hn1, hn2, hse, hus, isCriticalCall]
            | some o =>
              by_cases hreb : strContains o.stdout "universal-blue-update-reboot" = true <;>
                simp [ha, hu, hr, hpend, hn2m, hreb, countIf_append, countIf_cons,
                  countIf_nil, hn1, hn2, hse, hus, isCriticalCall]
          · simp [ha, hu, hr, hpend, countIf_append, countIf_cons, countIf_nil,
              hn1, hn2, hse, hus, isCriticalCall]
        · simp [ha, hu, hr, countIf_append, countIf_cons, countIf_nil, hn1, hse,
            isCriticalCall]
      · by_cases hsys : system = true <;>
          simp [ha, hu, hsys, countIf_cons, countIf_nil, isCriticalCall]

/-- C5 — for every run with failing inhibitor checks, an available update,
notifications enabled and no check-only flag, the trace splits into a part
containing exactly one critical escalation notification (the confirm-action
request) and no lock acquisition, followed by a part with no further critical
notification; and whenever the escalation response carries the confirm
action, the run's outcome and remaining trace are exactly those of the same
invocation with the force flag set. -/
theorem c5_escalation_exactly_once (env : Env) (args : CliArgs)
    (hw : args.wait = false) (hf : args.force = false) (huc : args.updatecheck = false)
    (hc : args.check = false) (hfail : env.hwFailed = true)
    (hav : env.updateAvailable = true) (hd : env.cfg.dbus_notify = true) :
    ∃ pre post,
      (main_run env args).2 = pre ++ post ∧
      countIf isCriticalCall pre = 1 ∧
      countIf isAcquire pre = 0 ∧
      Event.notifyCall escReq ∈ pre ∧
      countIf isCriticalCall post = 0 ∧
      (∀ o, (notify env escReq).1 = some o →
        strContains o.stdout "universal-blue-update-confirm" = true →
        (main_run env args).1 = (main_run env { args with force := true }).1 ∧
        post = (main_run env { args with force := true }).2) := by
  have hone : countIf isCriticalCall (notify env escReq).2 = 1 :=
    notify_count_call _ _ _ hd (fun n => rfl) (fun m => rfl) rfl rfl
  have hnoacq : countIf isAcquire (notify env escReq).2 = 0 :=
    notify_count_zero _ _ _ (fun n => rfl) (fun m => rfl) rfl rfl
  have hmem : Event.notifyCall escReq ∈ (notify env escReq).2 := notify_call_mem _ _ hd
  have hforced : main_run env { args with force := true } =
      run_updates env args.system true := by
    simp [main_run, hw, huc, hav]
  have hmain : main_run env args =
      hardware_inhibitor_checks_failed env env.hwFailures args.check
        env.updateAvailable args.system := by
    simp [main_run, hw, hf, huc, hfail]
  cases hno : (notify env escReq).1 with
  | none =>
    refine ⟨(notify env escReq).2, [], ?_, hone, hnoacq, hmem, rfl, ?_⟩
    · rw [hmain]
      simp [hardware_inhibitor_checks_failed, ask_for_updates, hav, hc, hd, hno]
    · intro o ho hcf
      simp at ho
  | some o =>
    by_cases hconf : strContains o.stdout "universal-blue-update-confirm" = true
    · refine ⟨(notify env escReq).2, (run_updates env args.system true).2, ?_, hone,
        hnoacq, hmem, run_updates_count_critical env args.system true, ?_⟩
      · rw [hmain]
        simp [hardware_inhibitor_checks_failed, ask_for_updates, hav, hc, hd, hno, hconf]
      · intro o' ho' hcf
        refine ⟨?_, by rw [hforced]⟩
        rw [hmain, hforced]
        simp [hardware_inhibitor_checks_failed, ask_for_updates, hav, hc, hd, hno, hconf]
    · refine ⟨(notify env escReq).2, [], ?_, hone, hnoacq, hmem, rfl, ?_⟩
      · rw [hmain]
        simp [hardware_inhibitor_checks_failed, ask_for_updates, hav, hc, hd, hno, hconf]
      · intro o' ho' hcf
        injection ho' with ho''
        rw [ho''] at hconf
        exact absurd hcf hconf

/-- C5 — witness at the concrete root environment with failing inhibitors,
an available update and notifications enabled. -/
theorem c5_witness :
    argsPlain.wait = false ∧ argsPlain.force = false ∧ argsPlain.updatecheck = false ∧
    argsPlain.check = false ∧ baseEnv.hwFailed = true ∧ baseEnv.updateAvailable = true ∧
    baseEnv.cfg.dbus_notify = true ∧
    (∃ pre post,
      (main_run baseEnv argsPlain).2 = pre ++ post ∧
      countIf isCriticalCall pre = 1 ∧
      countIf isAcquire pre = 0 ∧
      Event.notifyCall escReq ∈ pre ∧
      countIf isCriticalCall post = 0 ∧
      (∀ o, (notify baseEnv escReq).1 = some o →
        strContains o.stdout "universal-blue-update-confirm" = true →
        (main_run baseEnv argsPlain).1 =
          (main_run baseEnv { argsPlain with force := true }).1 ∧
        post = (main_run baseEnv { argsPlain with force := true }).2)) :=
  ⟨rfl, rfl, rfl, rfl, rfl, rfl, rfl,
   c5_escalation_exactly_once baseEnv argsPlain rfl rfl rfl rfl rfl rfl rfl⟩
